import Mathlib

/-!
# streamfx::nvidia::cuda::context

A shallow embedding of `source/nvidia/cuda/nvidia-cuda-context.cpp`.

The driver behind `_cuda` is an external collaborator.  It is embedded as a
record of transition functions over an arbitrary driver state, so that every
statement below which quantifies over a `Driver` holds for every possible
driver behaviour.  Each call made through `_cuda` is appended, together with
the status it returned, to a chronological log.

Two build switches matter for this file: `ENABLE_STACK_CHECKS` is defined
unconditionally on line 48, and `NDEBUG` decides whether `assert(e)` evaluates
its argument or expands to nothing.  The latter is the parameter `ndebug`.
-/

namespace streamfx.nvidia.cuda

/-! ## Types declared in headers that are not part of the source tree -/

/-- Modelled from the spec: the status code returned by every driver entry
point (the enumeration `result` of the binding header, which is not part of
the source tree).  Only equality with `SUCCESS` is ever inspected by the
source. -/
structure result where
  code : Nat
deriving DecidableEq, Repr

/-- Modelled from the spec: the success status. -/
def result.SUCCESS : result := ⟨0⟩

/-- Modelled from the spec: an opaque compute-context handle (`context_t`).
The value-initialised handle `_ctx()` is `0`, the empty handle. -/
abbrev context_t := Nat

/-- Modelled from the spec: a physical device index (`device_t`).  The
value-initialised `_device()` is `0`. -/
abbrev device_t := Int

/-- Modelled from the spec: primary-context scheduling policies
(`context_flags` of the binding header).  The source uses only
`SCHEDULER_BLOCKING_SYNC`. -/
inductive context_flags where
  | SCHEDULER_AUTO
  | SCHEDULER_SPIN
  | SCHEDULER_YIELD
  | SCHEDULER_BLOCKING_SYNC
deriving DecidableEq, Repr

/-- The adapter handle obtained from the graphics API. -/
abbrev IDXGIAdapter := Nat

/-- A live graphics device; `QueryInterface` followed by `GetAdapter`
(lines 75-80, return values unchecked by the source) yields its adapter.
A C++ `ID3D11Device*` is an `Option ID3D11Device`, with `none` the null
pointer. -/
structure ID3D11Device where
  adapter : IDXGIAdapter
deriving DecidableEq, Repr

/-! ## Driver calls and the call log -/

/-- The driver entry points reached through `_cuda`, with the input arguments
the source passes. -/
inductive Call where
  | cuD3D11GetDevice (adapter : IDXGIAdapter)
  | cuDevicePrimaryCtxSetFlags (dev : device_t) (flags : context_flags)
  | cuDevicePrimaryCtxRetain (dev : device_t)
  | cuDevicePrimaryCtxRelease (dev : device_t)
  | cuCtxDestroy (ctx : context_t)
  | cuDeviceGetName (len : Int) (dev : device_t)
  | cuDeviceGetLuid (dev : device_t)
  | cuDeviceGetUuid (dev : device_t)
  | cuCtxPushCurrent (ctx : context_t)
  | cuCtxPopCurrent
  | cuCtxGetCurrent
  | cuCtxSynchronize
deriving DecidableEq, Repr

/-- One log entry: the call and the status the driver returned for it. -/
structure Event where
  call : Call
  status : result
deriving DecidableEq, Repr

/-- The driver as a transition system over its own state `σ`.  An entry point
with an output parameter also returns the value found in that parameter after
the call. -/
structure Driver (σ : Type) where
  cuD3D11GetDevice : σ → IDXGIAdapter → result × device_t × σ
  cuDevicePrimaryCtxSetFlags : σ → device_t → context_flags → result × σ
  cuDevicePrimaryCtxRetain : σ → device_t → result × context_t × σ
  cuDevicePrimaryCtxRelease : σ → device_t → result × σ
  cuCtxDestroy : σ → context_t → result × σ
  cuDeviceGetName : σ → Int → device_t → result × σ
  cuDeviceGetLuid : σ → device_t → result × σ
  cuDeviceGetUuid : σ → device_t → result × σ
  cuCtxPushCurrent : σ → context_t → result × σ
  cuCtxPopCurrent : σ → result × context_t × σ
  cuCtxGetCurrent : σ → result × context_t × σ
  cuCtxSynchronize : σ → result × σ

/-- The driver state together with the log of calls made so far (oldest
first). -/
structure World (σ : Type) where
  drv : σ
  log : List Event

/-- Record a call and move the driver to its next state. -/
def World.step {σ : Type} (w : World σ) (c : Call) (r : result) (s : σ) : World σ :=
  { drv := s, log := w.log ++ [⟨c, r⟩] }

/-- Result of a call without output parameter. -/
structure Ret (σ : Type) where
  status : result
  world : World σ

/-- Result of a call with one output parameter. -/
structure RetOut (α σ : Type) where
  status : result
  out : α
  world : World σ

variable {σ : Type}

def call_cuD3D11GetDevice (d : Driver σ) (w : World σ) (adapter : IDXGIAdapter) :
    RetOut device_t σ :=
  let r := d.cuD3D11GetDevice w.drv adapter
  ⟨r.1, r.2.1, w.step (.cuD3D11GetDevice adapter) r.1 r.2.2⟩

def call_cuDevicePrimaryCtxSetFlags (d : Driver σ) (w : World σ) (dev : device_t)
    (flags : context_flags) : Ret σ :=
  let r := d.cuDevicePrimaryCtxSetFlags w.drv dev flags
  ⟨r.1, w.step (.cuDevicePrimaryCtxSetFlags dev flags) r.1 r.2⟩

def call_cuDevicePrimaryCtxRetain (d : Driver σ) (w : World σ) (dev : device_t) :
    RetOut context_t σ :=
  let r := d.cuDevicePrimaryCtxRetain w.drv dev
  ⟨r.1, r.2.1, w.step (.cuDevicePrimaryCtxRetain dev) r.1 r.2.2⟩

def call_cuDevicePrimaryCtxRelease (d : Driver σ) (w : World σ) (dev : device_t) : Ret σ :=
  let r := d.cuDevicePrimaryCtxRelease w.drv dev
  ⟨r.1, w.step (.cuDevicePrimaryCtxRelease dev) r.1 r.2⟩

def call_cuCtxDestroy (d : Driver σ) (w : World σ) (ctx : context_t) : Ret σ :=
  let r := d.cuCtxDestroy w.drv ctx
  ⟨r.1, w.step (.cuCtxDestroy ctx) r.1 r.2⟩

def call_cuDeviceGetName (d : Driver σ) (w : World σ) (len : Int) (dev : device_t) : Ret σ :=
  let r := d.cuDeviceGetName w.drv len dev
  ⟨r.1, w.step (.cuDeviceGetName len dev) r.1 r.2⟩

def call_cuDeviceGetLuid (d : Driver σ) (w : World σ) (dev : device_t) : Ret σ :=
  let r := d.cuDeviceGetLuid w.drv dev
  ⟨r.1, w.step (.cuDeviceGetLuid dev) r.1 r.2⟩

def call_cuDeviceGetUuid (d : Driver σ) (w : World σ) (dev : device_t) : Ret σ :=
  let r := d.cuDeviceGetUuid w.drv dev
  ⟨r.1, w.step (.cuDeviceGetUuid dev) r.1 r.2⟩

def call_cuCtxPushCurrent (d : Driver σ) (w : World σ) (ctx : context_t) : Ret σ :=
  let r := d.cuCtxPushCurrent w.drv ctx
  ⟨r.1, w.step (.cuCtxPushCurrent ctx) r.1 r.2⟩

def call_cuCtxPopCurrent (d : Driver σ) (w : World σ) : RetOut context_t σ :=
  let r := d.cuCtxPopCurrent w.drv
  ⟨r.1, r.2.1, w.step .cuCtxPopCurrent r.1 r.2.2⟩

def call_cuCtxGetCurrent (d : Driver σ) (w : World σ) : RetOut context_t σ :=
  let r := d.cuCtxGetCurrent w.drv
  ⟨r.1, r.2.1, w.step .cuCtxGetCurrent r.1 r.2.2⟩

def call_cuCtxSynchronize (d : Driver σ) (w : World σ) : Ret σ :=
  let r := d.cuCtxSynchronize w.drv
  ⟨r.1, w.step .cuCtxSynchronize r.1 r.2⟩

/-! ## Exceptions and outcomes -/

/-- The C++ class of a thrown exception. -/
inductive ExnClass where
  | invalid_argument
  | runtime_error
  | cuda_error
deriving DecidableEq, Repr

/-- The exceptions thrown by the source. -/
inductive Exn where
  | invalid_argument (what : String)
  | runtime_error (what : String)
  | cuda_error (res : result)
deriving DecidableEq, Repr

/-- The dynamic type of an exception, which is what a `catch` clause can
select on. -/
def Exn.cls : Exn → ExnClass
  | .invalid_argument _ => .invalid_argument
  | .runtime_error _ => .runtime_error
  | .cuda_error _ => .cuda_error

/-- How a member function ends: it returns, it throws, or a failed `assert`
aborts the process. -/
inductive Outcome (α : Type) where
  | ok (a : α)
  | thrown (e : Exn)
  | abort
deriving DecidableEq, Repr

/-! ## The class `context` -/

/-- The data members of `context` (`_cuda` is the `Driver` passed to every
operation). -/
structure context where
  _ctx : context_t
  _has_device : Bool
  _device : device_t
deriving DecidableEq, Repr

/-- Lines 50-59, `~context()`. -/
def context.dtor (d : Driver σ) (self : context) (w : World σ) : World σ :=
  if self._has_device then
    (call_cuDevicePrimaryCtxRelease d w self._device).world
  else
    (call_cuCtxDestroy d w self._ctx).world

/-- Lines 61-65, `context()`: `_ctx()`, `_has_device(false)`, `_device()`.
Obtaining `_cuda` is not a driver call. -/
def context.ctor (w : World σ) : context × World σ :=
  ({ _ctx := 0, _has_device := false, _device := 0 }, w)

/-- Lines 69-118, the body of `context(ID3D11Device*)`, run on the object the
delegated-to `context()` has initialised.  Returns how the body ended, the
members at that point and the world. -/
def context.ctor_device_body (d : Driver σ) (device : Option ID3D11Device) (self : context)
    (w : World σ) : Outcome Unit × context × World σ :=
  match device with
  | none => (.thrown (.invalid_argument "device"), self, w)
  | some dev =>
    let dxgi_adapter := dev.adapter
    let r1 := call_cuD3D11GetDevice d w dxgi_adapter
    let self1 := { self with _device := r1.out }
    if r1.status ≠ result.SUCCESS then
      (.thrown (.runtime_error "Failed to get device index for device."), self1, r1.world)
    else
      let r2 := call_cuDevicePrimaryCtxSetFlags d r1.world self1._device
        context_flags.SCHEDULER_BLOCKING_SYNC
      let r3 := call_cuDevicePrimaryCtxRetain d r2.world self1._device
      let self2 := { self1 with _ctx := r3.out }
      if r3.status ≠ result.SUCCESS then
        (.thrown (.runtime_error "Failed to acquire primary device context."), self2, r3.world)
      else
        let r4 := call_cuDeviceGetName d r3.world 255 self2._device
        let r5 := call_cuDeviceGetLuid d r4.world self2._device
        let r6 := call_cuDeviceGetUuid d r5.world self2._device
        (.ok (), { self2 with _has_device := true }, r6.world)

/-- Lines 68-118, `context(ID3D11Device*) : context()`.  The target
constructor has completed when the body runs, so when the body exits by an
exception the destructor of the object is invoked before the exception
leaves the constructor. -/
def context.ctor_device (d : Driver σ) (device : Option ID3D11Device) (w : World σ) :
    Outcome context × World σ :=
  let c0 := context.ctor w
  let b := context.ctor_device_body d device c0.1 c0.2
  match b.1 with
  | .ok _ => (.ok b.2.1, b.2.2)
  | .thrown e => (.thrown e, context.dtor d b.2.1 b.2.2)
  | .abort => (.abort, b.2.2)

/-- Lines 121-124, `get()`. -/
def context.get (self : context) : context_t :=
  self._ctx

/-- Lines 131-136, `push()`. -/
def context.push (d : Driver σ) (self : context) (w : World σ) : Outcome Unit × World σ :=
  let r := call_cuCtxPushCurrent d w self._ctx
  if r.status ≠ result.SUCCESS then (.thrown (.cuda_error r.status), r.world)
  else (.ok (), r.world)

/-- Lines 138-147, `pop()`.  The query on line 142 sits in the condition of
an `if` and is made in every build; the comparison on line 143 and the whole
of line 146, the pop-current call included, are arguments of `assert` and
exist only when `NDEBUG` is not defined. -/
def context.pop (ndebug : Bool) (d : Driver σ) (self : context) (w : World σ) :
    Outcome Unit × World σ :=
  let g := call_cuCtxGetCurrent d w
  if g.status = result.SUCCESS ∧ ndebug = false ∧ g.out ≠ self._ctx then
    (.abort, g.world)
  else if ndebug then
    (.ok (), g.world)
  else
    let p := call_cuCtxPopCurrent d g.world
    if p.status = result.SUCCESS then (.ok (), p.world) else (.abort, p.world)

/-- Lines 149-162, `synchronize()`. -/
def context.synchronize (ndebug : Bool) (d : Driver σ) (self : context) (w : World σ) :
    Outcome Unit × World σ :=
  let g := call_cuCtxGetCurrent d w
  if g.status = result.SUCCESS ∧ ndebug = false ∧ g.out ≠ self._ctx then
    (.abort, g.world)
  else
    let r := call_cuCtxSynchronize d g.world
    if r.status ≠ result.SUCCESS then (.thrown (.cuda_error r.status), r.world)
    else (.ok (), r.world)

/-! ## Reading the log -/

/-- The events recorded between the earlier world `w` and the later `w1`. -/
def World.since (w1 w : World σ) : List Event :=
  w1.log.drop w.log.length

/-- The calls recorded between the earlier world `w` and the later `w1`. -/
def World.callsSince (w1 w : World σ) : List Call :=
  (w1.since w).map Event.call

def Call.isResolve : Call → Bool
  | .cuD3D11GetDevice _ => true
  | _ => false

def Call.isRetain : Call → Bool
  | .cuDevicePrimaryCtxRetain _ => true
  | _ => false

def Call.isRelease : Call → Bool
  | .cuDevicePrimaryCtxRelease _ => true
  | _ => false

def Call.isDestroy : Call → Bool
  | .cuCtxDestroy _ => true
  | _ => false

def Call.isPop : Call → Bool
  | .cuCtxPopCurrent => true
  | _ => false

/-! ## A fake driver with a per-thread context stack -/

/-- Modelled from the spec: the state of a fake driver (the driver itself is
an external collaborator).  `stack` is the per-thread current-context stack,
top first; `refs` counts the references held on the primary context and
`destroyed` lists the handles passed to a context destroy, oldest first; the
remaining fields fix the status the fake returns for the calls that can be
rejected, the device an adapter resolves to and the handle of that device's
primary context. -/
structure FakeState where
  stack : List context_t
  refs : Nat
  destroyed : List context_t
  resolveStatus : result
  resolved : device_t
  retainStatus : result
  primary : context_t
  pushStatus : result
  syncStatus : result
  otherStatus : result
deriving DecidableEq, Repr

/-- Modelled from the spec: the status of a pop on an empty stack. -/
def result.INVALID_CONTEXT : result := ⟨201⟩

/-- Modelled from the spec: a fake driver.  An accepted push puts the handle
on top of the stack, a rejected one leaves the stack alone; a pop removes and
returns the top and is an error on an empty stack; the current-context query
succeeds with the top of the stack, or with the empty handle when there is
none.  A successful retain adds a reference to the primary context and a
release drops one; a destroy is noted with its handle.  An output parameter
is left at the empty value by a failed call. -/
def fakeDriver : Driver FakeState where
  cuD3D11GetDevice s _ :=
    (s.resolveStatus, if s.resolveStatus = result.SUCCESS then s.resolved else 0, s)
  cuDevicePrimaryCtxSetFlags s _ _ := (s.otherStatus, s)
  cuDevicePrimaryCtxRetain s _ :=
    if s.retainStatus = result.SUCCESS then
      (result.SUCCESS, s.primary, { s with refs := s.refs + 1 })
    else (s.retainStatus, 0, s)
  cuDevicePrimaryCtxRelease s _ := (s.otherStatus, { s with refs := s.refs - 1 })
  cuCtxDestroy s ctx := (s.otherStatus, { s with destroyed := s.destroyed ++ [ctx] })
  cuDeviceGetName s _ _ := (s.otherStatus, s)
  cuDeviceGetLuid s _ := (s.otherStatus, s)
  cuDeviceGetUuid s _ := (s.otherStatus, s)
  cuCtxPushCurrent s ctx :=
    if s.pushStatus = result.SUCCESS then (result.SUCCESS, { s with stack := ctx :: s.stack })
    else (s.pushStatus, s)
  cuCtxPopCurrent s :=
    match s.stack with
    | [] => (result.INVALID_CONTEXT, 0, s)
    | top :: rest => (result.SUCCESS, top, { s with stack := rest })
  cuCtxGetCurrent s := (result.SUCCESS, s.stack.headD 0, s)
  cuCtxSynchronize s := (s.syncStatus, s)

/-- A fake driver state in which every call succeeds: empty stack, no
reference held, adapters resolve to device `2`, whose primary context has
handle `41`. -/
def fakeOk : FakeState :=
  { stack := [], refs := 0, destroyed := [], resolveStatus := result.SUCCESS, resolved := 2,
    retainStatus := result.SUCCESS, primary := 41, pushStatus := result.SUCCESS,
    syncStatus := result.SUCCESS, otherStatus := result.SUCCESS }

/-- A world with the given driver state and an empty log. -/
def World.fresh (s : σ) : World σ :=
  { drv := s, log := [] }

/-! ## The driver calls of a device-derived construction, by name -/

/-- The adapter-to-device query of line 83, as made when a Context is
constructed from the live device `dev` in world `w`. -/
def resolveStep (d : Driver σ) (w : World σ) (dev : ID3D11Device) : RetOut device_t σ :=
  call_cuD3D11GetDevice d w dev.adapter

/-- The scheduling-flag call of line 87 in that construction. -/
def flagsStep (d : Driver σ) (w : World σ) (dev : ID3D11Device) : Ret σ :=
  call_cuDevicePrimaryCtxSetFlags d (resolveStep d w dev).world (resolveStep d w dev).out
    context_flags.SCHEDULER_BLOCKING_SYNC

/-- The primary-context retain of line 90 in that construction. -/
def retainStep (d : Driver σ) (w : World σ) (dev : ID3D11Device) : RetOut context_t σ :=
  call_cuDevicePrimaryCtxRetain d (flagsStep d w dev).world (resolveStep d w dev).out

/-- The message of the exception thrown on line 84. -/
def msgResolve : String := "Failed to get device index for device."

/-- The message of the exception thrown on line 91. -/
def msgRetain : String := "Failed to acquire primary device context."

/-- A fake driver state that rejects every adapter. -/
def fakeRejectAdapter : FakeState :=
  { fakeOk with resolveStatus := ⟨101⟩ }

/-- A fake driver state whose primary-context retain fails. -/
def fakeRetainFails : FakeState :=
  { fakeOk with retainStatus := ⟨2⟩ }

/-- A live graphics device on adapter `9`. -/
def dev9 : ID3D11Device := ⟨9⟩

/-- A standalone Context with handle `7`. -/
def ctx7 : context := ⟨7, false, 0⟩

/-- A standalone Context with handle `8`. -/
def ctx8 : context := ⟨8, false, 0⟩

/-- A fake driver state whose stack holds the single handle `5`. -/
def fakeStack5 : FakeState :=
  { fakeOk with stack := [5] }

/-- A fake driver state whose synchronize call reports the fault `700`. -/
def fakeSyncFault : FakeState :=
  { fakeOk with stack := [7], syncStatus := ⟨700⟩ }

/-- A fake driver state whose stack holds the single handle `7`. -/
def fakeStack7 : FakeState :=
  { fakeOk with stack := [7] }

/-- A fake driver state in which one reference is held on the primary
context. -/
def fakeRetained : FakeState :=
  { fakeOk with refs := 1 }

/-- A device-derived Context holding the primary context `41` of device
`2`. -/
def ctxDevice : context := ⟨41, true, 2⟩

/-- Modelled from the spec: the fake driver with a current-context query that
fails with status `3` and writes nothing; every other entry point is
unchanged. -/
def fakeQueryFails : Driver FakeState :=
  { fakeDriver with cuCtxGetCurrent := fun s => (⟨3⟩, 0, s) }

/-! ## Log lemmas -/

theorem drop_length_append (l1 l2 : List Event) : (l1 ++ l2).drop l1.length = l2 := by
  induction l1 with
  | nil => rfl
  | cons a t ih => simp

theorem since_of_log_eq (w1 w : World σ) (l : List Event) (h : w1.log = w.log ++ l) :
    w1.since w = l := by
  unfold World.since
  rw [h, drop_length_append]

/-- The log after the destructor: the earlier log followed by one teardown
event. -/
theorem dtor_log (d : Driver σ) (c : context) (w : World σ) :
    (context.dtor d c w).log = w.log ++
      [if c._has_device then
          ⟨.cuDevicePrimaryCtxRelease c._device, (d.cuDevicePrimaryCtxRelease w.drv c._device).1⟩
        else ⟨.cuCtxDestroy c._ctx, (d.cuCtxDestroy w.drv c._ctx).1⟩] := by
  unfold context.dtor
  cases c._has_device <;>
    simp [call_cuDevicePrimaryCtxRelease, call_cuCtxDestroy, World.step]

/-- The driver state after the destructor: the state the matching teardown
entry point of the driver returns. -/
theorem dtor_drv (d : Driver σ) (c : context) (w : World σ) :
    (context.dtor d c w).drv =
      (if c._has_device then (d.cuDevicePrimaryCtxRelease w.drv c._device).2
       else (d.cuCtxDestroy w.drv c._ctx).2) := by
  unfold context.dtor
  cases c._has_device <;>
    simp [call_cuDevicePrimaryCtxRelease, call_cuCtxDestroy, World.step]

/-- Construction from a live device when the adapter query fails. -/
theorem ctor_device_resolve_fails (d : Driver σ) (w : World σ) (dev : ID3D11Device)
    (h1 : (resolveStep d w dev).status ≠ result.SUCCESS) :
    context.ctor_device d (some dev) w =
      (.thrown (.runtime_error msgResolve),
       context.dtor d ⟨0, false, (resolveStep d w dev).out⟩ (resolveStep d w dev).world) := by
  unfold resolveStep at h1
  simp [context.ctor_device, context.ctor_device_body, context.ctor, resolveStep, h1,
    msgResolve]

/-- Construction from a live device when the adapter query succeeds and the
retain fails. -/
theorem ctor_device_retain_fails (d : Driver σ) (w : World σ) (dev : ID3D11Device)
    (h1 : (resolveStep d w dev).status = result.SUCCESS)
    (h3 : (retainStep d w dev).status ≠ result.SUCCESS) :
    context.ctor_device d (some dev) w =
      (.thrown (.runtime_error msgRetain),
       context.dtor d ⟨(retainStep d w dev).out, false, (resolveStep d w dev).out⟩
         (retainStep d w dev).world) := by
  unfold retainStep flagsStep resolveStep at h3
  unfold resolveStep at h1
  simp [context.ctor_device, context.ctor_device_body, context.ctor, resolveStep, flagsStep,
    retainStep, h1, h3, msgRetain]

/-- Construction from a live device when both the adapter query and the
retain succeed. -/
theorem ctor_device_succeeds (d : Driver σ) (w : World σ) (dev : ID3D11Device)
    (h1 : (resolveStep d w dev).status = result.SUCCESS)
    (h3 : (retainStep d w dev).status = result.SUCCESS) :
    context.ctor_device d (some dev) w =
      (.ok ⟨(retainStep d w dev).out, true, (resolveStep d w dev).out⟩,
       (call_cuDeviceGetUuid d
         (call_cuDeviceGetLuid d
           (call_cuDeviceGetName d (retainStep d w dev).world 255
             (resolveStep d w dev).out).world
           (resolveStep d w dev).out).world
         (resolveStep d w dev).out).world) := by
  unfold retainStep flagsStep resolveStep at h3
  unfold resolveStep at h1
  simp [context.ctor_device, context.ctor_device_body, context.ctor, resolveStep, flagsStep,
    retainStep, h1, h3]

theorem resolveStep_log (d : Driver σ) (w : World σ) (dev : ID3D11Device) :
    (resolveStep d w dev).world.log = w.log ++
      [⟨.cuD3D11GetDevice dev.adapter, (resolveStep d w dev).status⟩] := by
  simp [resolveStep, call_cuD3D11GetDevice, World.step]

theorem retainStep_log (d : Driver σ) (w : World σ) (dev : ID3D11Device) :
    (retainStep d w dev).world.log = w.log ++
      [⟨.cuD3D11GetDevice dev.adapter, (resolveStep d w dev).status⟩,
       ⟨.cuDevicePrimaryCtxSetFlags (resolveStep d w dev).out
          context_flags.SCHEDULER_BLOCKING_SYNC, (flagsStep d w dev).status⟩,
       ⟨.cuDevicePrimaryCtxRetain (resolveStep d w dev).out, (retainStep d w dev).status⟩] := by
  simp [retainStep, flagsStep, resolveStep, call_cuD3D11GetDevice,
    call_cuDevicePrimaryCtxSetFlags, call_cuDevicePrimaryCtxRetain, World.step]

/-- The body of push() in closed form. -/
theorem push_eq (d : Driver σ) (c : context) (w : World σ) :
    context.push d c w =
      (if (d.cuCtxPushCurrent w.drv c._ctx).1 = result.SUCCESS then
        (.ok (), w.step (.cuCtxPushCurrent c._ctx) (d.cuCtxPushCurrent w.drv c._ctx).1
          (d.cuCtxPushCurrent w.drv c._ctx).2)
       else
        (.thrown (.cuda_error (d.cuCtxPushCurrent w.drv c._ctx).1),
          w.step (.cuCtxPushCurrent c._ctx) (d.cuCtxPushCurrent w.drv c._ctx).1
            (d.cuCtxPushCurrent w.drv c._ctx).2)) := by
  unfold context.push call_cuCtxPushCurrent
  by_cases h : (d.cuCtxPushCurrent w.drv c._ctx).1 = result.SUCCESS
  · simp only [h, ne_eq, not_true_eq_false, if_false, if_true]
  · simp only [h, ne_eq, not_false_eq_true, if_false, if_true]

/-- When the consistency assertion of synchronize() fails, the function
aborts right after the current-context query. -/
theorem synchronize_of_mismatch (ndebug : Bool) (d : Driver σ) (c : context) (w : World σ)
    (hg : (d.cuCtxGetCurrent w.drv).1 = result.SUCCESS ∧ ndebug = false ∧
      (d.cuCtxGetCurrent w.drv).2.1 ≠ c._ctx) :
    context.synchronize ndebug d c w = (.abort, (call_cuCtxGetCurrent d w).world) := by
  unfold context.synchronize
  have hg2 : (call_cuCtxGetCurrent d w).status = result.SUCCESS ∧ ndebug = false ∧
      (call_cuCtxGetCurrent d w).out ≠ c._ctx := hg
  exact if_pos hg2

/-- When the consistency assertion of synchronize() does not fail, the
synchronize call is issued and its status decides the outcome. -/
theorem synchronize_of_no_mismatch (ndebug : Bool) (d : Driver σ) (c : context) (w : World σ)
    (hg : ¬ ((d.cuCtxGetCurrent w.drv).1 = result.SUCCESS ∧ ndebug = false ∧
      (d.cuCtxGetCurrent w.drv).2.1 ≠ c._ctx)) :
    context.synchronize ndebug d c w =
      (if (call_cuCtxSynchronize d (call_cuCtxGetCurrent d w).world).status = result.SUCCESS then
        (.ok (), (call_cuCtxSynchronize d (call_cuCtxGetCurrent d w).world).world)
       else
        (.thrown (.cuda_error
            (call_cuCtxSynchronize d (call_cuCtxGetCurrent d w).world).status),
          (call_cuCtxSynchronize d (call_cuCtxGetCurrent d w).world).world)) := by
  unfold context.synchronize
  have hg2 : ¬ ((call_cuCtxGetCurrent d w).status = result.SUCCESS ∧ ndebug = false ∧
      (call_cuCtxGetCurrent d w).out ≠ c._ctx) := hg
  rw [show (if (call_cuCtxGetCurrent d w).status = result.SUCCESS ∧ ndebug = false ∧
        (call_cuCtxGetCurrent d w).out ≠ c._ctx then
      ((Outcome.abort : Outcome Unit), (call_cuCtxGetCurrent d w).world)
    else
      (let r := call_cuCtxSynchronize d (call_cuCtxGetCurrent d w).world
       if r.status ≠ result.SUCCESS then (.thrown (.cuda_error r.status), r.world)
       else (.ok (), r.world))) =
      (let r := call_cuCtxSynchronize d (call_cuCtxGetCurrent d w).world
       if r.status ≠ result.SUCCESS then (.thrown (.cuda_error r.status), r.world)
       else (.ok (), r.world)) from if_neg hg2]
  by_cases hr : (call_cuCtxSynchronize d (call_cuCtxGetCurrent d w).world).status
      = result.SUCCESS
  · simp only [hr, ne_eq, not_true_eq_false, if_false, if_true]
  · simp only [hr, ne_eq, not_false_eq_true, if_false, if_true]

/-- With `NDEBUG` defined, pop() consists of the current-context query
alone. -/
theorem pop_ndebug (d : Driver σ) (c : context) (w : World σ) :
    context.pop true d c w = (.ok (), (call_cuCtxGetCurrent d w).world) := by
  unfold context.pop
  simp

/-- With assertions enabled, pop() aborts exactly when the current-context
query succeeds with another handle or the pop-current call returns a
non-success status; the handle written by the pop-current call is not
inspected. -/
theorem pop_debug_abort_iff (d : Driver σ) (c : context) (w : World σ) :
    (context.pop false d c w).1 = .abort ↔
      (((call_cuCtxGetCurrent d w).status = result.SUCCESS ∧
          (call_cuCtxGetCurrent d w).out ≠ c._ctx) ∨
        (call_cuCtxPopCurrent d (call_cuCtxGetCurrent d w).world).status ≠ result.SUCCESS) := by
  unfold context.pop
  by_cases hg : (call_cuCtxGetCurrent d w).status = result.SUCCESS ∧
      (call_cuCtxGetCurrent d w).out ≠ c._ctx
  · simp [hg]
  · by_cases hp : (call_cuCtxPopCurrent d (call_cuCtxGetCurrent d w).world).status
        = result.SUCCESS
    · simp [hg, hp]
    · simp [hg, hp]

/-- With assertions enabled and the consistency assertion passing or skipped,
pop() ends in the world the pop-current call leaves. -/
theorem pop_debug_world (d : Driver σ) (c : context) (w : World σ)
    (hg : ¬ ((call_cuCtxGetCurrent d w).status = result.SUCCESS ∧
      (call_cuCtxGetCurrent d w).out ≠ c._ctx)) :
    (context.pop false d c w).2 =
      (call_cuCtxPopCurrent d (call_cuCtxGetCurrent d w).world).world := by
  unfold context.pop
  by_cases hp : (call_cuCtxPopCurrent d (call_cuCtxGetCurrent d w).world).status
      = result.SUCCESS
  · simp [hg, hp]
  · simp [hg, hp]

/-- With assertions enabled, pop() either aborts or returns normally; it
never throws. -/
theorem pop_debug_ok_iff (d : Driver σ) (c : context) (w : World σ) :
    (context.pop false d c w).1 = .ok () ↔ ¬ (context.pop false d c w).1 = .abort := by
  unfold context.pop
  by_cases hg : (call_cuCtxGetCurrent d w).status = result.SUCCESS ∧
      (call_cuCtxGetCurrent d w).out ≠ c._ctx
  · simp [hg]
  · by_cases hp : (call_cuCtxPopCurrent d (call_cuCtxGetCurrent d w).world).status
        = result.SUCCESS
    · simp [hg, hp]
    · simp [hg, hp]

/-- With assertions enabled, pop() returns normally after the pop-current
call when the current-context query reports this Context's handle and the
pop-current call succeeds. -/
theorem pop_debug_ok (d : Driver σ) (c : context) (w : World σ)
    (hg : (d.cuCtxGetCurrent w.drv).2.1 = c._ctx)
    (hp : (d.cuCtxPopCurrent (d.cuCtxGetCurrent w.drv).2.2).1 = result.SUCCESS) :
    context.pop false d c w =
      (.ok (), (call_cuCtxPopCurrent d (call_cuCtxGetCurrent d w).world).world) := by
  have hg2 : (call_cuCtxGetCurrent d w).out = c._ctx := hg
  have hp2 : (call_cuCtxPopCurrent d (call_cuCtxGetCurrent d w).world).status
      = result.SUCCESS := hp
  unfold context.pop
  simp [hg2, hp2]

/-- The driver state after push(), whatever the outcome. -/
theorem push_drv (d : Driver σ) (c : context) (w : World σ) :
    (context.push d c w).2.drv = (d.cuCtxPushCurrent w.drv c._ctx).2 := by
  rw [push_eq]
  by_cases h : (d.cuCtxPushCurrent w.drv c._ctx).1 = result.SUCCESS
  · rw [if_pos h]
    rfl
  · rw [if_neg h]
    rfl

/-- The push() call returns normally exactly on a success status. -/
theorem push_ok_iff (d : Driver σ) (c : context) (w : World σ) :
    (context.push d c w).1 = .ok () ↔ (d.cuCtxPushCurrent w.drv c._ctx).1 = result.SUCCESS := by
  rw [push_eq]
  by_cases h : (d.cuCtxPushCurrent w.drv c._ctx).1 = result.SUCCESS
  · rw [if_pos h]
    simp [h]
  · rw [if_neg h]
    simp [h]

theorem fake_push_status (s : FakeState) (ctx : context_t) :
    (fakeDriver.cuCtxPushCurrent s ctx).1 = s.pushStatus := by
  by_cases h : s.pushStatus = result.SUCCESS <;> simp [fakeDriver, h]

theorem fake_push_state (s : FakeState) (ctx : context_t)
    (h : s.pushStatus = result.SUCCESS) :
    (fakeDriver.cuCtxPushCurrent s ctx).2 = { s with stack := ctx :: s.stack } := by
  simp [fakeDriver, h]

theorem fake_current (s : FakeState) :
    fakeDriver.cuCtxGetCurrent s = (result.SUCCESS, s.stack.headD 0, s) := rfl

theorem fake_pop_cons (s : FakeState) (top : context_t) (rest : List context_t)
    (h : s.stack = top :: rest) :
    fakeDriver.cuCtxPopCurrent s = (result.SUCCESS, top, { s with stack := rest }) := by
  simp [fakeDriver, h]

theorem fake_pop_nil (s : FakeState) (h : s.stack = []) :
    fakeDriver.cuCtxPopCurrent s = (result.INVALID_CONTEXT, 0, s) := by
  simp [fakeDriver, h]

/-- On the fake driver with assertions enabled, a successful push() followed
by pop() on the same Context returns normally and restores the driver
state. -/
theorem push_pop_restores_with_assertions (c : context) (w : World FakeState)
    (hpush : (context.push fakeDriver c w).1 = .ok ()) :
    (context.pop false fakeDriver c (context.push fakeDriver c w).2).1 = .ok () ∧
    (context.pop false fakeDriver c (context.push fakeDriver c w).2).2.drv = w.drv := by
  have hs : w.drv.pushStatus = result.SUCCESS := by
    rw [← fake_push_status w.drv c._ctx]
    exact (push_ok_iff fakeDriver c w).1 hpush
  have hd : (context.push fakeDriver c w).2.drv = { w.drv with stack := c._ctx :: w.drv.stack } := by
    rw [push_drv, fake_push_state _ _ hs]
  have hpop : fakeDriver.cuCtxPopCurrent (context.push fakeDriver c w).2.drv =
      (result.SUCCESS, c._ctx, w.drv) := by
    rw [fake_pop_cons _ c._ctx w.drv.stack (by rw [hd]), hd]
  have hrun := pop_debug_ok fakeDriver c (context.push fakeDriver c w).2
    (by rw [fake_current, hd]; rfl) (by rw [fake_current, hpop])
  rw [hrun]
  refine ⟨rfl, ?_⟩
  show (fakeDriver.cuCtxPopCurrent
    (fakeDriver.cuCtxGetCurrent (context.push fakeDriver c w).2.drv).2.2).2.2 = w.drv
  rw [fake_current, hpop]

/-- The calls of a failed device-derived construction. -/
theorem failed_ctor_calls (d : Driver σ) (device : Option ID3D11Device)
    (w : World σ) (e : Exn) (hfail : (context.ctor_device d device w).1 = .thrown e) :
    (∀ c ∈ (context.ctor_device d device w).2.callsSince w, c.isRelease = false) ∧
    (∃ pre, (context.ctor_device d device w).2.callsSince w = pre ++
        [Call.cuCtxDestroy
          (context.ctor_device_body d device (context.ctor w).1 (context.ctor w).2).2.1._ctx] ∧
      ∀ c ∈ pre, c.isDestroy = false) ∧
    ((∀ c ∈ (context.ctor_device d device w).2.callsSince w, c.isRetain = false) →
      (context.ctor_device_body d device (context.ctor w).1 (context.ctor w).2).2.1._ctx = 0) ∧
    (device = none →
      (context.ctor_device d device w).2.callsSince w = [Call.cuCtxDestroy 0]) := by
  cases device with
  | none =>
    have hlog : (context.ctor_device d none w).2.log = w.log ++
        [⟨.cuCtxDestroy 0, (d.cuCtxDestroy w.drv 0).1⟩] := by
      simp [context.ctor_device, context.ctor_device_body, context.ctor, dtor_log]
    have hc : (context.ctor_device d none w).2.callsSince w = [Call.cuCtxDestroy 0] := by
      simp [World.callsSince, since_of_log_eq _ _ _ hlog]
    refine ⟨?_, ⟨[], ?_, ?_⟩, ?_, fun _ => hc⟩
    · intro c hmem
      rw [hc] at hmem
      simp at hmem
      subst hmem
      rfl
    · simpa [context.ctor_device_body, context.ctor] using hc
    · simp
    · intro _
      rfl
  | some dev =>
    by_cases h1 : (resolveStep d w dev).status = result.SUCCESS
    · by_cases h3 : (retainStep d w dev).status = result.SUCCESS
      · rw [ctor_device_succeeds d w dev h1 h3] at hfail
        cases hfail
      · have hbody : (context.ctor_device_body d (some dev) (context.ctor w).1
            (context.ctor w).2).2.1._ctx = (retainStep d w dev).out := by
          have h1x := h1
          have h3x := h3
          unfold retainStep flagsStep resolveStep at h3x
          unfold resolveStep at h1x
          simp [context.ctor_device_body, context.ctor, retainStep, flagsStep, resolveStep,
            h1x, h3x]
        have hc : (context.ctor_device d (some dev) w).2.callsSince w =
            [Call.cuD3D11GetDevice dev.adapter,
             Call.cuDevicePrimaryCtxSetFlags (resolveStep d w dev).out
               context_flags.SCHEDULER_BLOCKING_SYNC,
             Call.cuDevicePrimaryCtxRetain (resolveStep d w dev).out,
             Call.cuCtxDestroy (retainStep d w dev).out] := by
          have hlog : (context.ctor_device d (some dev) w).2.log = w.log ++
              [⟨.cuD3D11GetDevice dev.adapter, (resolveStep d w dev).status⟩,
               ⟨.cuDevicePrimaryCtxSetFlags (resolveStep d w dev).out
                  context_flags.SCHEDULER_BLOCKING_SYNC, (flagsStep d w dev).status⟩,
               ⟨.cuDevicePrimaryCtxRetain (resolveStep d w dev).out,
                  (retainStep d w dev).status⟩,
               ⟨.cuCtxDestroy (retainStep d w dev).out,
                  (d.cuCtxDestroy (retainStep d w dev).world.drv
                    (retainStep d w dev).out).1⟩] := by
            rw [ctor_device_retain_fails d w dev h1 h3]
            simp [dtor_log, retainStep_log]
          simp [World.callsSince, since_of_log_eq _ _ _ hlog]
        rw [hbody, hc]
        refine ⟨?_, ⟨[Call.cuD3D11GetDevice dev.adapter,
             Call.cuDevicePrimaryCtxSetFlags (resolveStep d w dev).out
               context_flags.SCHEDULER_BLOCKING_SYNC,
             Call.cuDevicePrimaryCtxRetain (resolveStep d w dev).out], rfl, ?_⟩, ?_, ?_⟩
        · intro c hmem
          simp at hmem
          rcases hmem with h | h | h | h <;> subst h <;> rfl
        · intro c hmem
          simp at hmem
          rcases hmem with h | h | h <;> subst h <;> rfl
        · intro hno
          have := hno (Call.cuDevicePrimaryCtxRetain (resolveStep d w dev).out) (by simp)
          simp [Call.isRetain] at this
        · intro hnone
          cases hnone
    · have hbody : (context.ctor_device_body d (some dev) (context.ctor w).1
          (context.ctor w).2).2.1._ctx = 0 := by
        have h1x := h1
        unfold resolveStep at h1x
        simp [context.ctor_device_body, context.ctor, resolveStep, h1x]
      have hc : (context.ctor_device d (some dev) w).2.callsSince w =
          [Call.cuD3D11GetDevice dev.adapter, Call.cuCtxDestroy 0] := by
        have hlog : (context.ctor_device d (some dev) w).2.log = w.log ++
            [⟨.cuD3D11GetDevice dev.adapter, (resolveStep d w dev).status⟩,
             ⟨.cuCtxDestroy 0, (d.cuCtxDestroy (resolveStep d w dev).world.drv 0).1⟩] := by
          rw [ctor_device_resolve_fails d w dev h1]
          simp [dtor_log, resolveStep_log]
        simp [World.callsSince, since_of_log_eq _ _ _ hlog]
      rw [hbody, hc]
      refine ⟨?_, ⟨[Call.cuD3D11GetDevice dev.adapter], rfl, ?_⟩, fun _ => rfl, ?_⟩
      · intro c hmem
        simp at hmem
        rcases hmem with h | h <;> subst h <;> rfl
      · intro c hmem
        simp at hmem
        subst hmem
        rfl
      · intro hnone
        cases hnone

/-- The object and the world at the point where the body of the
device-derived constructor throws because the adapter query failed. -/
theorem body_resolve_fails (d : Driver σ) (w : World σ) (dev : ID3D11Device)
    (h1 : (resolveStep d w dev).status ≠ result.SUCCESS) :
    context.ctor_device_body d (some dev) (context.ctor w).1 (context.ctor w).2 =
      (.thrown (.runtime_error msgResolve), ⟨0, false, (resolveStep d w dev).out⟩,
        (resolveStep d w dev).world) := by
  unfold resolveStep at h1
  simp [context.ctor_device_body, context.ctor, resolveStep, h1, msgResolve]

/-- The object and the world at the point where the body of the
device-derived constructor throws because the retain failed. -/
theorem body_retain_fails (d : Driver σ) (w : World σ) (dev : ID3D11Device)
    (h1 : (resolveStep d w dev).status = result.SUCCESS)
    (h3 : (retainStep d w dev).status ≠ result.SUCCESS) :
    context.ctor_device_body d (some dev) (context.ctor w).1 (context.ctor w).2 =
      (.thrown (.runtime_error msgRetain),
        ⟨(retainStep d w dev).out, false, (resolveStep d w dev).out⟩,
        (retainStep d w dev).world) := by
  unfold retainStep flagsStep resolveStep at h3
  unfold resolveStep at h1
  simp [context.ctor_device_body, context.ctor, resolveStep, flagsStep, retainStep, h1, h3,
    msgRetain]

/-- A failed device-derived construction ends with the destructor run on the
object as the body left it, and that object has has_device false. -/
theorem failed_ctor_world (d : Driver σ) (device : Option ID3D11Device)
    (w : World σ) (e : Exn) (hfail : (context.ctor_device d device w).1 = .thrown e) :
    (context.ctor_device_body d device (context.ctor w).1 (context.ctor w).2).2.1._has_device
      = false ∧
    (context.ctor_device d device w).2 =
      context.dtor d
        (context.ctor_device_body d device (context.ctor w).1 (context.ctor w).2).2.1
        (context.ctor_device_body d device (context.ctor w).1 (context.ctor w).2).2.2 := by
  cases device with
  | none => exact ⟨rfl, rfl⟩
  | some dev =>
    by_cases h1 : (resolveStep d w dev).status = result.SUCCESS
    · by_cases h3 : (retainStep d w dev).status = result.SUCCESS
      · rw [ctor_device_succeeds d w dev h1 h3] at hfail
        cases hfail
      · rw [body_retain_fails d w dev h1 h3, ctor_device_retain_fails d w dev h1 h3]
        exact ⟨rfl, rfl⟩
    · rw [body_resolve_fails d w dev h1, ctor_device_resolve_fails d w dev h1]
      exact ⟨rfl, rfl⟩

/-! ## Claims -/

/-- C1: constructing a Context from a null graphics device fails with the
invalid-argument exception; the constructor body throws before it has made
any driver call, and the whole attempt records no device-resolution call and
no primary-context retain call. -/
theorem C1_null_device_invalid_argument (d : Driver σ) (w : World σ) :
    (context.ctor_device d none w).1 = .thrown (.invalid_argument "device") ∧
    (context.ctor_device_body d none (context.ctor w).1 (context.ctor w).2).2.2 = w ∧
    (∀ c ∈ (context.ctor_device d none w).2.callsSince w,
      c.isResolve = false ∧ c.isRetain = false) := by
  refine ⟨rfl, rfl, ?_⟩
  have hlog : (context.ctor_device d none w).2.log = w.log ++
      [⟨.cuCtxDestroy 0, (d.cuCtxDestroy w.drv 0).1⟩] := by
    simp [context.ctor_device, context.ctor_device_body, context.ctor, dtor_log]
  intro c hc
  simp only [World.callsSince, since_of_log_eq _ _ _ hlog, List.map_cons, List.map_nil,
    List.mem_singleton] at hc
  subst hc
  exact ⟨rfl, rfl⟩

/-- C2, as stated, fails: constructing from a null device on the fake driver
fails with the invalid-argument exception, and the attempt records one driver
call, a context destroy of the empty handle, issued by the destructor that
runs for the failed object. -/
theorem C2_null_attempt_records_destroy :
    (context.ctor_device fakeDriver none (World.fresh fakeOk)).1
      = .thrown (.invalid_argument "device") ∧
    (context.ctor_device fakeDriver none (World.fresh fakeOk)).2.callsSince (World.fresh fakeOk)
      = [Call.cuCtxDestroy 0] ∧
    (context.ctor_device fakeDriver none (World.fresh fakeOk)).2.callsSince (World.fresh fakeOk)
      ≠ [] ∧
    ¬ (∀ c ∈ (context.ctor_device fakeDriver none (World.fresh fakeOk)).2.callsSince
        (World.fresh fakeOk), c.isDestroy = false) := by
  decide

/-- C2, amended: every device-derived construction that fails issues no
primary-context release; the destructor that runs for the failed object
issues exactly one context destroy, as the last call of the attempt, on the
handle the object holds at that point, which is the empty handle whenever no
retain call was made; and when the device handle is null that destroy of the
empty handle is the only driver call recorded.  The failed object has
has_device false, and the destroy reaches the driver: the attempt leaves the
driver in the state its context-destroy entry point returns for that
handle. -/
theorem C2_failed_ctor_no_release_one_destroy (d : Driver σ) (device : Option ID3D11Device)
    (w : World σ) (e : Exn) (hfail : (context.ctor_device d device w).1 = .thrown e) :
    (∀ c ∈ (context.ctor_device d device w).2.callsSince w, c.isRelease = false) ∧
    (∃ pre, (context.ctor_device d device w).2.callsSince w = pre ++
        [Call.cuCtxDestroy
          (context.ctor_device_body d device (context.ctor w).1 (context.ctor w).2).2.1._ctx] ∧
      ∀ c ∈ pre, c.isDestroy = false) ∧
    ((∀ c ∈ (context.ctor_device d device w).2.callsSince w, c.isRetain = false) →
      (context.ctor_device_body d device (context.ctor w).1 (context.ctor w).2).2.1._ctx = 0) ∧
    (device = none →
      (context.ctor_device d device w).2.callsSince w = [Call.cuCtxDestroy 0]) ∧
    (context.ctor_device_body d device (context.ctor w).1 (context.ctor w).2).2.1._has_device
      = false ∧
    (context.ctor_device d device w).2.drv =
      (d.cuCtxDestroy
        (context.ctor_device_body d device (context.ctor w).1 (context.ctor w).2).2.2.drv
        (context.ctor_device_body d device (context.ctor w).1
          (context.ctor w).2).2.1._ctx).2 := by
  have hcalls := failed_ctor_calls d device w e hfail
  have hworld := failed_ctor_world d device w e hfail
  refine ⟨hcalls.1, hcalls.2.1, hcalls.2.2.1, hcalls.2.2.2, hworld.1, ?_⟩
  rw [hworld.2, dtor_drv, hworld.1]
  rfl

/-- Witness for the amended C2: the retain fails on the fake driver. -/
theorem C2_failed_ctor_no_release_one_destroy_witness :
    (context.ctor_device fakeDriver (some dev9) (World.fresh fakeRetainFails)).1
      = .thrown (.runtime_error msgRetain) ∧
    (∀ c ∈ (context.ctor_device fakeDriver (some dev9)
        (World.fresh fakeRetainFails)).2.callsSince (World.fresh fakeRetainFails),
      c.isRelease = false) :=
  ⟨by decide,
   (C2_failed_ctor_no_release_one_destroy fakeDriver (some dev9) (World.fresh fakeRetainFails)
     (.runtime_error msgRetain) (by decide)).1⟩

/-- C3, as stated, fails: on the fake driver the failure for a rejected
adapter and the failure for a failed retain are exceptions of one and the
same class, so their types do not tell them apart. -/
theorem C3_failures_share_exception_class :
    (context.ctor_device fakeDriver (some dev9) (World.fresh fakeRejectAdapter)).1
      = .thrown (.runtime_error msgResolve) ∧
    (context.ctor_device fakeDriver (some dev9) (World.fresh fakeRetainFails)).1
      = .thrown (.runtime_error msgRetain) ∧
    ¬ ((Exn.runtime_error msgResolve).cls ≠ (Exn.runtime_error msgRetain).cls) := by
  decide

/-- C3, amended: for every non-null graphics device, construction fails with
the runtime error "Failed to get device index for device." exactly when the
adapter-to-device query returns a non-success status (and then no retain call
is made), and fails with the runtime error "Failed to acquire primary device
context." exactly when that query succeeds but the retain returns a
non-success status; both failures have the class runtime_error and are told
apart by their message only, and that class differs from the class of the
invalid-argument exception. -/
theorem C3_resolution_and_retain_failures (d : Driver σ) (w : World σ) (dev : ID3D11Device) :
    ((context.ctor_device d (some dev) w).1 = .thrown (.runtime_error msgResolve) ↔
      (resolveStep d w dev).status ≠ result.SUCCESS) ∧
    ((resolveStep d w dev).status ≠ result.SUCCESS →
      ∀ c ∈ (context.ctor_device d (some dev) w).2.callsSince w, c.isRetain = false) ∧
    ((context.ctor_device d (some dev) w).1 = .thrown (.runtime_error msgRetain) ↔
      ((resolveStep d w dev).status = result.SUCCESS ∧
        (retainStep d w dev).status ≠ result.SUCCESS)) ∧
    (∀ e, (context.ctor_device d (some dev) w).1 = .thrown e →
      e.cls = ExnClass.runtime_error ∧ e.cls ≠ (Exn.invalid_argument "device").cls) ∧
    Exn.runtime_error msgResolve ≠ Exn.runtime_error msgRetain ∧
    (Exn.runtime_error msgResolve).cls = (Exn.runtime_error msgRetain).cls := by
  have hmsg : Exn.runtime_error msgResolve ≠ Exn.runtime_error msgRetain := by decide
  have hmsg2 : Exn.runtime_error msgRetain ≠ Exn.runtime_error msgResolve := by decide
  refine ⟨?_, ?_, ?_, ?_, hmsg, rfl⟩
  · by_cases h1 : (resolveStep d w dev).status = result.SUCCESS
    · by_cases h3 : (retainStep d w dev).status = result.SUCCESS
      · rw [ctor_device_succeeds d w dev h1 h3]
        simp [h1]
      · rw [ctor_device_retain_fails d w dev h1 h3]
        simp [h1, hmsg2]
    · rw [ctor_device_resolve_fails d w dev h1]
      simp [h1]
  · intro h1 c hmem
    have hlog : (context.ctor_device d (some dev) w).2.log = w.log ++
        [⟨.cuD3D11GetDevice dev.adapter, (resolveStep d w dev).status⟩,
         ⟨.cuCtxDestroy 0, (d.cuCtxDestroy (resolveStep d w dev).world.drv 0).1⟩] := by
      rw [ctor_device_resolve_fails d w dev h1]
      simp [dtor_log, resolveStep_log]
    simp [World.callsSince, since_of_log_eq _ _ _ hlog] at hmem
    rcases hmem with h | h <;> subst h <;> rfl
  · by_cases h1 : (resolveStep d w dev).status = result.SUCCESS
    · by_cases h3 : (retainStep d w dev).status = result.SUCCESS
      · rw [ctor_device_succeeds d w dev h1 h3]
        simp [h1, h3]
      · rw [ctor_device_retain_fails d w dev h1 h3]
        simp [h1, h3]
    · rw [ctor_device_resolve_fails d w dev h1]
      simp [h1, hmsg]
  · intro e he
    by_cases h1 : (resolveStep d w dev).status = result.SUCCESS
    · by_cases h3 : (retainStep d w dev).status = result.SUCCESS
      · rw [ctor_device_succeeds d w dev h1 h3] at he
        cases he
      · rw [ctor_device_retain_fails d w dev h1 h3] at he
        cases he
        exact ⟨rfl, by decide⟩
    · rw [ctor_device_resolve_fails d w dev h1] at he
      cases he
      exact ⟨rfl, by decide⟩

/-- Witness for the amended C3: a rejected adapter on the fake driver leads
to no retain call. -/
theorem C3_resolution_and_retain_failures_witness :
    (resolveStep fakeDriver (World.fresh fakeRejectAdapter) dev9).status ≠ result.SUCCESS ∧
    (∀ c ∈ (context.ctor_device fakeDriver (some dev9)
        (World.fresh fakeRejectAdapter)).2.callsSince (World.fresh fakeRejectAdapter),
      c.isRetain = false) :=
  ⟨by decide,
   (C3_resolution_and_retain_failures fakeDriver (World.fresh fakeRejectAdapter) dev9).2.1
     (by decide)⟩

/-- C5, as stated, fails: on the fake driver with assertions enabled and
handle `5` current, synchronize() on the Context with handle `7` aborts, and
so does not return normally, although the driver answers a synchronize call
with the success status in that state and in every state of the attempt. -/
theorem C5_synchronize_aborts_despite_success_status :
    (fakeDriver.cuCtxSynchronize fakeStack5).1 = result.SUCCESS ∧
    (fakeDriver.cuCtxSynchronize (fakeDriver.cuCtxGetCurrent fakeStack5).2.2).1
      = result.SUCCESS ∧
    (context.synchronize false fakeDriver ctx7 (World.fresh fakeStack5)).1 = .abort ∧
    ¬ ((context.synchronize false fakeDriver ctx7 (World.fresh fakeStack5)).1 = .ok ()) := by
  decide

/-- C5, amended: push() issues the push-current call on this Context's handle
and throws exactly when the driver returns a non-success status for it; it
returns normally exactly on the success status.  synchronize() first queries
the current context; with assertions enabled it aborts, without issuing a
synchronize call, exactly when that query succeeds with a handle other than
this Context's; in every other case (always when assertions are compiled
out) it issues the synchronize call, throws exactly when the driver returns a
non-success status for it and returns normally exactly on the success status.
Every exception thrown is the driver error carrying exactly the status the
driver returned. -/
theorem C5_push_synchronize_driver_error (ndebug : Bool) (d : Driver σ) (c : context)
    (w : World σ) :
    (context.push d c w).2 =
      w.step (.cuCtxPushCurrent c._ctx) (d.cuCtxPushCurrent w.drv c._ctx).1
        (d.cuCtxPushCurrent w.drv c._ctx).2 ∧
    (∀ e, (context.push d c w).1 = .thrown e ↔
      ((d.cuCtxPushCurrent w.drv c._ctx).1 ≠ result.SUCCESS ∧
        e = .cuda_error (d.cuCtxPushCurrent w.drv c._ctx).1)) ∧
    ((context.push d c w).1 = .ok () ↔ (d.cuCtxPushCurrent w.drv c._ctx).1 = result.SUCCESS) ∧
    ((context.synchronize ndebug d c w).1 = .abort ↔
      (ndebug = false ∧ (d.cuCtxGetCurrent w.drv).1 = result.SUCCESS ∧
        (d.cuCtxGetCurrent w.drv).2.1 ≠ c._ctx)) ∧
    ((ndebug = false ∧ (d.cuCtxGetCurrent w.drv).1 = result.SUCCESS ∧
        (d.cuCtxGetCurrent w.drv).2.1 ≠ c._ctx) →
      (context.synchronize ndebug d c w).2 =
        w.step .cuCtxGetCurrent (d.cuCtxGetCurrent w.drv).1 (d.cuCtxGetCurrent w.drv).2.2) ∧
    (¬ (ndebug = false ∧ (d.cuCtxGetCurrent w.drv).1 = result.SUCCESS ∧
        (d.cuCtxGetCurrent w.drv).2.1 ≠ c._ctx) →
      (context.synchronize ndebug d c w).2 =
        (w.step .cuCtxGetCurrent (d.cuCtxGetCurrent w.drv).1
          (d.cuCtxGetCurrent w.drv).2.2).step .cuCtxSynchronize
          (d.cuCtxSynchronize (d.cuCtxGetCurrent w.drv).2.2).1
          (d.cuCtxSynchronize (d.cuCtxGetCurrent w.drv).2.2).2 ∧
      (∀ e, (context.synchronize ndebug d c w).1 = .thrown e ↔
        ((d.cuCtxSynchronize (d.cuCtxGetCurrent w.drv).2.2).1 ≠ result.SUCCESS ∧
          e = .cuda_error (d.cuCtxSynchronize (d.cuCtxGetCurrent w.drv).2.2).1)) ∧
      ((context.synchronize ndebug d c w).1 = .ok () ↔
        (d.cuCtxSynchronize (d.cuCtxGetCurrent w.drv).2.2).1 = result.SUCCESS)) := by
  refine ⟨?_, ?_, ?_, ?_⟩
  · rw [push_eq]
    by_cases h : (d.cuCtxPushCurrent w.drv c._ctx).1 = result.SUCCESS
    · rw [if_pos h]
    · rw [if_neg h]
  · intro e
    rw [push_eq]
    by_cases h : (d.cuCtxPushCurrent w.drv c._ctx).1 = result.SUCCESS
    · simp [h]
    · simp only [h, if_false, ne_eq, not_false_eq_true, true_and]
      constructor
      · intro he
        cases he
        rfl
      · intro he
        rw [he]
  · exact push_ok_iff d c w
  · by_cases hM : ndebug = false ∧ (d.cuCtxGetCurrent w.drv).1 = result.SUCCESS ∧
        (d.cuCtxGetCurrent w.drv).2.1 ≠ c._ctx
    · have hout := synchronize_of_mismatch ndebug d c w ⟨hM.2.1, hM.1, hM.2.2⟩
      rw [hout]
      refine ⟨?_, ?_, ?_⟩
      · exact ⟨fun _ => hM, fun _ => rfl⟩
      · intro _
        rfl
      · intro hn
        exact absurd hM hn
    · have hout := synchronize_of_no_mismatch ndebug d c w
        (fun h => hM ⟨h.2.1, h.1, h.2.2⟩)
      have hst : (call_cuCtxSynchronize d (call_cuCtxGetCurrent d w).world).status =
          (d.cuCtxSynchronize (d.cuCtxGetCurrent w.drv).2.2).1 := rfl
      have hwd : (call_cuCtxSynchronize d (call_cuCtxGetCurrent d w).world).world =
          (w.step .cuCtxGetCurrent (d.cuCtxGetCurrent w.drv).1
            (d.cuCtxGetCurrent w.drv).2.2).step .cuCtxSynchronize
            (d.cuCtxSynchronize (d.cuCtxGetCurrent w.drv).2.2).1
            (d.cuCtxSynchronize (d.cuCtxGetCurrent w.drv).2.2).2 := rfl
      rw [hst, hwd] at hout
      rw [hout]
      by_cases hr : (d.cuCtxSynchronize (d.cuCtxGetCurrent w.drv).2.2).1 = result.SUCCESS
      · rw [if_pos hr]
        refine ⟨?_, ?_, ?_⟩
        · constructor
          · intro h
            cases h
          · intro h
            exact absurd h hM
        · intro h
          exact absurd h hM
        · intro _
          refine ⟨rfl, ?_, ?_⟩
          · intro e
            constructor
            · intro he
              cases he
            · rintro ⟨hne, _⟩
              exact absurd hr hne
          · exact ⟨fun _ => hr, fun _ => rfl⟩
      · rw [if_neg hr]
        refine ⟨?_, ?_, ?_⟩
        · constructor
          · intro h
            cases h
          · intro h
            exact absurd h hM
        · intro h
          exact absurd h hM
        · intro _
          refine ⟨rfl, ?_, ?_⟩
          · intro e
            constructor
            · intro he
              cases he
              exact ⟨hr, rfl⟩
            · rintro ⟨_, he⟩
              rw [he]
          · constructor
            · intro h
              cases h
            · intro h
              exact absurd h hr

/-- Witness for the amended C5: with assertions enabled and this Context
current, a faulting synchronize on the fake driver surfaces as the driver
error carrying the fault code `700`. -/
theorem C5_push_synchronize_driver_error_witness :
    ¬ ((false : Bool) = false ∧
        (fakeDriver.cuCtxGetCurrent (World.fresh fakeSyncFault).drv).1 = result.SUCCESS ∧
        (fakeDriver.cuCtxGetCurrent (World.fresh fakeSyncFault).drv).2.1 ≠ ctx7._ctx) ∧
    (fakeDriver.cuCtxSynchronize
      (fakeDriver.cuCtxGetCurrent (World.fresh fakeSyncFault).drv).2.2).1 = ⟨700⟩ ∧
    (context.synchronize false fakeDriver ctx7 (World.fresh fakeSyncFault)).1
      = .thrown (.cuda_error ⟨700⟩) :=
  ⟨by decide, by decide,
   (((C5_push_synchronize_driver_error false fakeDriver ctx7
     (World.fresh fakeSyncFault)).2.2.2.2.2 (by decide)).2.1 (.cuda_error ⟨700⟩)).2
     ⟨by decide, by decide⟩⟩

/-- C6 fails in a build with `NDEBUG`: on the fake driver with stack `[5]`,
push() on the Context with handle `7` succeeds and the pop() that follows
returns normally, yet the stack is `[7, 5]` and not `[5]`, and the
current-context query returns `7` where it returned `5` before the push. -/
theorem C6_ndebug_push_pop_keeps_context_current :
    (context.push fakeDriver ctx7 (World.fresh fakeStack5)).1 = .ok () ∧
    (context.pop true fakeDriver ctx7
      (context.push fakeDriver ctx7 (World.fresh fakeStack5)).2).1 = .ok () ∧
    (context.pop true fakeDriver ctx7
      (context.push fakeDriver ctx7 (World.fresh fakeStack5)).2).2.drv.stack = [7, 5] ∧
    (context.pop true fakeDriver ctx7
      (context.push fakeDriver ctx7 (World.fresh fakeStack5)).2).2.drv ≠ fakeStack5 ∧
    (fakeDriver.cuCtxGetCurrent (context.pop true fakeDriver ctx7
      (context.push fakeDriver ctx7 (World.fresh fakeStack5)).2).2.drv).2.1 = 7 ∧
    (fakeDriver.cuCtxGetCurrent fakeStack5).2.1 = 5 := by
  decide

/-- C7 fails in a build with `NDEBUG`: on the fake driver with this Context's
handle `7` on top of the stack, pop() returns normally after the
current-context query alone; no pop-current call is issued and the handle
stays on the stack.  With assertions enabled the same input issues the
pop-current call and empties the stack. -/
theorem C7_ndebug_pop_issues_no_pop_call :
    (context.pop true fakeDriver ctx7 (World.fresh fakeStack7)).1 = .ok () ∧
    (context.pop true fakeDriver ctx7 (World.fresh fakeStack7)).2.callsSince
      (World.fresh fakeStack7) = [Call.cuCtxGetCurrent] ∧
    (∀ c ∈ (context.pop true fakeDriver ctx7 (World.fresh fakeStack7)).2.callsSince
      (World.fresh fakeStack7), c.isPop = false) ∧
    (context.pop true fakeDriver ctx7 (World.fresh fakeStack7)).2.drv.stack = [7] ∧
    (context.pop false fakeDriver ctx7 (World.fresh fakeStack7)).2.callsSince
      (World.fresh fakeStack7) = [Call.cuCtxGetCurrent, Call.cuCtxPopCurrent] ∧
    (context.pop false fakeDriver ctx7 (World.fresh fakeStack7)).2.drv.stack = [] := by
  decide

/-- C9, as stated, fails: after a standalone construction get() returns the
empty handle. -/
theorem C9_standalone_handle_is_empty :
    ¬ ((context.ctor (World.fresh fakeOk)).1.get ≠ 0) := by
  decide

/-- C9, amended: a standalone construction always succeeds without any driver
call and leaves has_device false and get() equal to the empty handle;
destroying that Context issues exactly one driver call, a context destroy of
that handle, and no primary-context release; the driver is left in the state
its context-destroy entry point returns for that handle. -/
theorem C9_standalone_ctor_then_dtor (d : Driver σ) (w : World σ) :
    (context.ctor w).2 = w ∧
    (context.ctor w).1.get = 0 ∧
    (context.ctor w).1._has_device = false ∧
    (context.dtor d (context.ctor w).1 (context.ctor w).2).callsSince w
      = [Call.cuCtxDestroy (context.ctor w).1.get] ∧
    (∀ c ∈ (context.dtor d (context.ctor w).1 (context.ctor w).2).callsSince w,
      c.isRelease = false) ∧
    (context.dtor d (context.ctor w).1 (context.ctor w).2).drv =
      (d.cuCtxDestroy w.drv (context.ctor w).1.get).2 := by
  have hc : (context.dtor d (context.ctor w).1 (context.ctor w).2).callsSince w
      = [Call.cuCtxDestroy (context.ctor w).1.get] := by
    show (context.dtor d (context.ctor w).1 w).callsSince w = _
    unfold World.callsSince
    rw [since_of_log_eq _ _ _ (dtor_log d (context.ctor w).1 w)]
    simp [context.ctor, context.get]
  refine ⟨rfl, rfl, rfl, hc, ?_, ?_⟩
  · intro c hmem
    rw [hc] at hmem
    simp at hmem
    subst hmem
    rfl
  · rw [dtor_drv]
    rfl

/-- C10, as stated, fails: with assertions enabled, on a driver whose stack
holds handle `5` and whose current-context query fails, the handle a pop
would return is `5` and not the handle `7` of this Context, yet pop() returns
normally after removing `5` from the stack. -/
theorem C10_pop_returns_when_query_fails :
    (fakeQueryFails.cuCtxPopCurrent fakeStack5).1 = result.SUCCESS ∧
    (fakeQueryFails.cuCtxPopCurrent fakeStack5).2.1 = 5 ∧
    (fakeQueryFails.cuCtxPopCurrent fakeStack5).2.1 ≠ ctx7._ctx ∧
    (context.pop false fakeQueryFails ctx7 (World.fresh fakeStack5)).1 = .ok () ∧
    ¬ ((context.pop false fakeQueryFails ctx7 (World.fresh fakeStack5)).1 = .abort) ∧
    (context.pop false fakeQueryFails ctx7 (World.fresh fakeStack5)).2.drv.stack = [] := by
  decide

/-- C10, amended: with assertions enabled, pop() aborts exactly when the
current-context query succeeds with a handle that is not this Context's
handle, or the pop-current call returns a non-success status, and returns
normally otherwise; the handle the pop returns is not compared, and no
comparison is made when the query fails.  On a driver whose query succeeds
with the top of the per-thread stack and whose pop returns that top, pop()
therefore aborts whenever the current context or the handle a pop would
return is not this Context's handle; in particular, after guards on two
Contexts with distinct handles have pushed in the order first, second,
popping the first before the second aborts.  When pop() returns normally the
driver has received the query and then the pop-current call. -/
theorem C10_debug_pop_abort_condition (d : Driver σ) (c : context) (w : World σ)
    (c1 c2 : context) (v : World FakeState) :
    ((context.pop false d c w).1 = .abort ↔
      (((d.cuCtxGetCurrent w.drv).1 = result.SUCCESS ∧
          (d.cuCtxGetCurrent w.drv).2.1 ≠ c._ctx) ∨
        (d.cuCtxPopCurrent (d.cuCtxGetCurrent w.drv).2.2).1 ≠ result.SUCCESS)) ∧
    ((context.pop false d c w).1 = .ok () ↔
      ¬ (((d.cuCtxGetCurrent w.drv).1 = result.SUCCESS ∧
          (d.cuCtxGetCurrent w.drv).2.1 ≠ c._ctx) ∨
        (d.cuCtxPopCurrent (d.cuCtxGetCurrent w.drv).2.2).1 ≠ result.SUCCESS)) ∧
    (((fakeDriver.cuCtxGetCurrent v.drv).2.1 ≠ c1._ctx ∨
        ((fakeDriver.cuCtxPopCurrent v.drv).1 = result.SUCCESS ∧
          (fakeDriver.cuCtxPopCurrent v.drv).2.1 ≠ c1._ctx)) →
      (context.pop false fakeDriver c1 v).1 = .abort) ∧
    (c1._ctx ≠ c2._ctx →
      (context.push fakeDriver c1 v).1 = .ok () →
      (context.push fakeDriver c2 (context.push fakeDriver c1 v).2).1 = .ok () →
      (context.pop false fakeDriver c1
        (context.push fakeDriver c2 (context.push fakeDriver c1 v).2).2).1 = .abort) ∧
    ((context.pop false d c w).1 = .ok () →
      (context.pop false d c w).2 =
        (w.step .cuCtxGetCurrent (d.cuCtxGetCurrent w.drv).1
          (d.cuCtxGetCurrent w.drv).2.2).step .cuCtxPopCurrent
          (d.cuCtxPopCurrent (d.cuCtxGetCurrent w.drv).2.2).1
          (d.cuCtxPopCurrent (d.cuCtxGetCurrent w.drv).2.2).2.2) := by
  have habort : (context.pop false d c w).1 = .abort ↔
      (((d.cuCtxGetCurrent w.drv).1 = result.SUCCESS ∧
          (d.cuCtxGetCurrent w.drv).2.1 ≠ c._ctx) ∨
        (d.cuCtxPopCurrent (d.cuCtxGetCurrent w.drv).2.2).1 ≠ result.SUCCESS) :=
    pop_debug_abort_iff d c w
  have key : ∀ (k : context) (u : World FakeState), u.drv.stack.headD 0 ≠ k._ctx →
      (context.pop false fakeDriver k u).1 = .abort := by
    intro k u hne
    rw [pop_debug_abort_iff]
    left
    exact ⟨rfl, hne⟩
  refine ⟨habort, ?_, ?_, ?_, ?_⟩
  · rw [pop_debug_ok_iff, habort]
  · rintro (h | ⟨hs, hne⟩)
    · exact key c1 v h
    · apply key c1 v
      cases hst : v.drv.stack with
      | nil =>
        rw [fake_pop_nil _ hst] at hs
        cases hs
      | cons top rest =>
        rw [fake_pop_cons _ top rest hst] at hne
        exact hne
  · intro hne _ h2
    apply key
    have hs : (context.push fakeDriver c1 v).2.drv.pushStatus = result.SUCCESS := by
      rw [← fake_push_status (context.push fakeDriver c1 v).2.drv c2._ctx]
      exact (push_ok_iff fakeDriver c2 _).1 h2
    rw [push_drv fakeDriver c2, fake_push_state _ _ hs]
    exact fun heq => hne heq.symm
  · intro hok
    have hna : ¬ (context.pop false d c w).1 = .abort := (pop_debug_ok_iff d c w).1 hok
    rw [habort] at hna
    exact pop_debug_world d c w (fun h => hna (Or.inl h))

/-- Witness for the amended C10: with handle `5` current, pop() on the
Context with handle `7` aborts on the fake driver; after pushing the Contexts
with handles `7` and `8` in that order, pop() on the first aborts; and on the
driver whose query fails the pop succeeds, so pop() returns normally. -/
theorem C10_debug_pop_abort_condition_witness :
    (fakeDriver.cuCtxGetCurrent (World.fresh fakeStack5).drv).2.1 ≠ ctx7._ctx ∧
    (context.pop false fakeDriver ctx7 (World.fresh fakeStack5)).1 = .abort ∧
    (context.pop false fakeDriver ctx7
      (context.push fakeDriver ctx8
        (context.push fakeDriver ctx7 (World.fresh fakeStack5)).2).2).1 = .abort ∧
    (context.pop false fakeQueryFails ctx7 (World.fresh fakeStack5)).1 = .ok () :=
  ⟨by decide,
   (C10_debug_pop_abort_condition fakeDriver ctx7 (World.fresh fakeStack5) ctx7 ctx8
     (World.fresh fakeStack5)).2.2.1 (Or.inl (by decide)),
   (C10_debug_pop_abort_condition fakeDriver ctx7 (World.fresh fakeStack5) ctx7 ctx8
     (World.fresh fakeStack5)).2.2.2.1 (by decide) (by decide) (by decide),
   (C10_debug_pop_abort_condition fakeQueryFails ctx7 (World.fresh fakeStack5) ctx7 ctx8
     (World.fresh fakeStack5)).2.1.2 (by decide)⟩

/-- C8: destroying a Context hands exactly one teardown to the driver: a
primary-context release for the stored device when has_device is true, and a
context destroy of the stored handle when has_device is false; in the first
case no destroy is issued and in the second no release.  The call really
reaches the driver: the event carries the status that entry point returned
and the driver is left in the state that entry point produced. -/
theorem C8_dtor_one_matching_teardown (d : Driver σ) (c : context) (w : World σ) :
    (context.dtor d c w).callsSince w =
      (if c._has_device then [Call.cuDevicePrimaryCtxRelease c._device]
       else [Call.cuCtxDestroy c._ctx]) ∧
    (c._has_device = true →
      ∀ k ∈ (context.dtor d c w).callsSince w, k.isDestroy = false) ∧
    (c._has_device = false →
      ∀ k ∈ (context.dtor d c w).callsSince w, k.isRelease = false) ∧
    (context.dtor d c w).since w =
      (if c._has_device then
        [⟨.cuDevicePrimaryCtxRelease c._device,
          (d.cuDevicePrimaryCtxRelease w.drv c._device).1⟩]
       else [⟨.cuCtxDestroy c._ctx, (d.cuCtxDestroy w.drv c._ctx).1⟩]) ∧
    (context.dtor d c w).drv =
      (if c._has_device then (d.cuDevicePrimaryCtxRelease w.drv c._device).2
       else (d.cuCtxDestroy w.drv c._ctx).2) := by
  have hs : (context.dtor d c w).since w =
      (if c._has_device then
        [⟨.cuDevicePrimaryCtxRelease c._device,
          (d.cuDevicePrimaryCtxRelease w.drv c._device).1⟩]
       else [⟨.cuCtxDestroy c._ctx, (d.cuCtxDestroy w.drv c._ctx).1⟩]) := by
    rw [since_of_log_eq _ _ _ (dtor_log d c w)]
    cases c._has_device <;> simp
  have h : (context.dtor d c w).callsSince w =
      (if c._has_device then [Call.cuDevicePrimaryCtxRelease c._device]
       else [Call.cuCtxDestroy c._ctx]) := by
    simp only [World.callsSince, hs]
    cases c._has_device <;> simp
  refine ⟨h, ?_, ?_, hs, dtor_drv d c w⟩
  · intro hd k hk
    rw [h, hd] at hk
    simp at hk
    subst hk
    rfl
  · intro hd k hk
    rw [h, hd] at hk
    simp at hk
    subst hk
    rfl

/-- Witness for C8 on the fake driver: a device-derived Context releases, and
the reference count of the primary context drops from one to zero; a
standalone one destroys, and the driver notes the destroyed handle. -/
theorem C8_dtor_one_matching_teardown_witness :
    (context.dtor fakeDriver ctxDevice (World.fresh fakeRetained)).callsSince
      (World.fresh fakeRetained) = [Call.cuDevicePrimaryCtxRelease 2] ∧
    (∀ k ∈ (context.dtor fakeDriver ctxDevice (World.fresh fakeRetained)).callsSince
      (World.fresh fakeRetained), k.isDestroy = false) ∧
    (∀ k ∈ (context.dtor fakeDriver ctx7 (World.fresh fakeOk)).callsSince
      (World.fresh fakeOk), k.isRelease = false) ∧
    (context.dtor fakeDriver ctxDevice (World.fresh fakeRetained)).drv =
      (if ctxDevice._has_device then
        (fakeDriver.cuDevicePrimaryCtxRelease (World.fresh fakeRetained).drv
          ctxDevice._device).2
       else (fakeDriver.cuCtxDestroy (World.fresh fakeRetained).drv ctxDevice._ctx).2) ∧
    (context.dtor fakeDriver ctxDevice (World.fresh fakeRetained)).drv.refs = 0 ∧
    (context.dtor fakeDriver ctx7 (World.fresh fakeOk)).drv.destroyed = [7] :=
  ⟨by decide,
   (C8_dtor_one_matching_teardown fakeDriver ctxDevice (World.fresh fakeRetained)).2.1 rfl,
   (C8_dtor_one_matching_teardown fakeDriver ctx7 (World.fresh fakeOk)).2.2.1 rfl,
   (C8_dtor_one_matching_teardown fakeDriver ctxDevice (World.fresh fakeRetained)).2.2.2.2,
   by decide, by decide⟩

end streamfx.nvidia.cuda
